import Mathlib

/-!
# Verification of the CPR agent-consensus core

A shallow embedding, in Lean 4, of the agreement subsystem of the CPR
repository (a grid simulation in which teams of robot agents gossip about
discovered gold, run a Paxos-derived pair election, and coordinate pickup).

The embedding follows the Rust sources:

* `src/communication/message.rs` — `Message`, `MessageBox`, `MessageBoard`
  (the delayed transport);
* `src/robot/mod.rs` — the `Robot` state, `reset`, `send`, `receive`,
  `set_consensus`, `plan_actions_to_move_to`, the `paxos_receiver` message
  dispatcher and the protocol part of `make_decision`;
* `src/environment/cell.rs` — `Cell` (only carried as data here, for the
  knowledge base).

Conventions of the embedding:

* Rust `char` agent identifiers become `Nat` character codes
  (so agent a = 97, b = 98, c = 99, d = 100);
* Rust `u8`/`u32` counters become `Nat` (all the counters involved only ever
  grow by one from zero and are compared with `<`/`≤`, so no wrap-around can
  occur in the modelled paths);
* `HashMap` becomes an association list (`clusters`) or a total function with
  a default (`MessageBoard`, matching `entry(..).or_default()`);
* randomness (`rand::rng()` draws) is passed in explicitly: a call of
  `random_range(lo..=hi)` on a seed `s` is modelled by `randomRange lo hi s`,
  the index drawn by `Vec::choose` / `retrieve_messages` is an explicit
  parameter, so every property is stated over all (or a concrete) draw;
* Rust panics (`unwrap` on `None`, reachable in the message handlers) are
  modelled by returning `none` from the handler (`Option`-valued step
  functions);
* fields of `Robot` that never feed back into the modelled logic
  (the `Arc<Mutex<..>>` handle, logging configuration, coordinate/action
  histories and the observation scratch list) are omitted; the shared
  message board is passed and returned explicitly instead.
-/

namespace CPR

/-- `random_range(lo..=hi)` from the `rand` crate, applied to an explicit seed:
the result is `lo + seed % (hi + 1 - lo)`, which ranges over `[lo, hi]`. -/
def randomRange (lo hi seed : Nat) : Nat := lo + seed % (hi + 1 - lo)

/-- `Team` from `src/robot/mod.rs`. -/
inductive Team where
  | Red : Team
  | Blue : Team
deriving DecidableEq

/-- `Direction` from `src/robot/mod.rs`. -/
inductive Direction where
  | Left : Direction
  | Right : Direction
  | Up : Direction
  | Down : Direction
deriving DecidableEq

/-- `Action` from `src/robot/mod.rs`. -/
inductive Action where
  | Move : Action
  | Turn : Direction → Action
  | PickUp : Action
deriving DecidableEq

/-- `RobotState` from `src/robot/mod.rs`. -/
inductive RobotState where
  | ClusterFinding : RobotState
  | Paxos : RobotState
  | WaitingForTaskCompletion : RobotState
  | MovingToTarget : RobotState
  | AtTarget : RobotState
  | MovingToDropBox : RobotState
deriving DecidableEq

/-- `Coord` from `src/util/mod.rs` (`usize` fields become `Nat`). -/
structure Coord where
  x : Nat
  y : Nat
deriving DecidableEq

/-- `CellContent` from `src/environment/cell.rs`. -/
inductive CellContent where
  | GoldBars : Nat → CellContent
  | DepositBox : Team → Nat → CellContent
deriving DecidableEq

/-- `Cell` from `src/environment/cell.rs` (robot ids as `Nat` codes). -/
structure Cell where
  coord : Coord
  red_robots : Nat
  red_robots_ids : List Nat
  blue_robots : Nat
  blue_robots_ids : List Nat
  content : Option CellContent
deriving DecidableEq

/-- `MessageType` from `src/communication/message.rs`. -/
inductive MessageType where
  | PrepareRequest : MessageType
  | PrepareResponse : MessageType
  | AcceptRequest : MessageType
  | Accepted : MessageType
  | Confirm : MessageType
  | Nack : MessageType
  | Simple : MessageType
  | Request : MessageType
  | Ack : MessageType
  | Done : MessageType
  | GetOut : MessageType
deriving DecidableEq

/-- `MessageContent` from `src/communication/message.rs`.
`char` payload fields become `Nat` character codes, `u8` gold amounts
become `Nat`. -/
inductive MessageContent where
  | Coord : Option Coord → Option Nat → MessageContent
  | Pair : Nat → Nat → MessageContent
  | Direction : Direction → MessageContent
  | TurnReq : Direction → Coord → MessageContent
deriving DecidableEq

/-- `Message` from `src/communication/message.rs`. -/
structure Message where
  sender_id : Nat
  msg_type : MessageType
  id : Nat
  message_content : MessageContent
  timer : Nat
deriving DecidableEq

/-- `Message::new`: the jitter timer is drawn by `rng.random_range(0..=3)`;
the draw's seed is passed explicitly. -/
def Message.new (sender_id : Nat) (msg_type : MessageType) (id : Nat)
    (message_content : MessageContent) (seed : Nat) : Message :=
  { sender_id := sender_id
    msg_type := msg_type
    id := id
    message_content := message_content
    timer := randomRange 0 3 seed }

/-- `MessageBox` from `src/communication/message.rs`: the *ready* buffer
`current_messages` and the *pending* buffer `new_messages`, both `Vec`s. -/
structure MessageBox where
  current_messages : List Message
  new_messages : List Message
deriving DecidableEq

/-- `MessageBox::new` (also its `Default`). -/
def MessageBox.new : MessageBox :=
  { current_messages := [], new_messages := [] }

/-- `MessageBox::update_messages`: `current.extend(new.drain(..))`. -/
def MessageBox.update_messages (box : MessageBox) : MessageBox :=
  { current_messages := box.current_messages ++ box.new_messages
    new_messages := [] }

/-- `MessageBox::send_messages`: `new_messages.push(message)`. -/
def MessageBox.send_messages (box : MessageBox) (message : Message) : MessageBox :=
  { box with new_messages := box.new_messages ++ [message] }

/-- `MessageBox::retrieve_messages`, with the index drawn by
`rng.random_range(0..current_messages.len())` passed in as `randomIndex`.
If the box is non-empty, the entry at that index is examined: timer `0`
means it is removed and returned; a positive timer is decremented in place
and nothing is returned. -/
def MessageBox.retrieve_messages (box : MessageBox) (randomIndex : Nat) :
    Option Message × MessageBox :=
  if box.current_messages.isEmpty then
    (none, box)
  else
    match box.current_messages.get? randomIndex with
    | some message =>
        if message.timer = 0 then
          (some message,
            { box with current_messages := box.current_messages.eraseIdx randomIndex })
        else
          let decremented : Message := { message with timer := message.timer - 1 }
          (none,
            { box with current_messages := box.current_messages.set randomIndex decremented })
    | none => (none, box)

/-- `MessageBoard` from `src/communication/message.rs`: the per-agent
`HashMap<char, MessageBox>`, rendered as an association list. -/
def MessageBoard : Type := List (Nat × MessageBox)

/-- `MessageBoard::update`: every box moves its pending messages to ready. -/
def MessageBoard.update (board : MessageBoard) : MessageBoard :=
  board.map (fun p => (p.1, p.2.update_messages))

/-- Looking an agent's box up, with the `or_default()` empty box when the id
is absent. -/
def MessageBoard.getBox : MessageBoard → Nat → MessageBox
  | [], _ => MessageBox.new
  | (id, box) :: rest, rid => if id = rid then box else MessageBoard.getBox rest rid

/-- Update of one agent's mailbox
(the `get_message_board().entry(rid).or_default()` access pattern: a missing
entry is created from the default box). -/
def MessageBoard.modifyBox : MessageBoard → Nat → (MessageBox → MessageBox) → MessageBoard
  | [], rid, f => [(rid, f MessageBox.new)]
  | (id, box) :: rest, rid, f =>
      if id = rid then (id, f box) :: rest
      else (id, box) :: MessageBoard.modifyBox rest rid f

/-- `Robot` from `src/robot/mod.rs`.  Character ids are `Nat` codes; the
shared `Arc<Mutex<MessageBoard>>` handle, the logging configuration and the
write-only history/observation fields are not carried (the board is passed
explicitly to the operations that touch it). -/
structure Robot where
  id : Nat
  team : Team
  current_coord : Coord
  facing : Direction
  is_carrying : Bool
  was_carrying : Bool
  pair_id : Option Nat
  deposit_box_coord : Coord
  knowledge_base : List (Coord × Cell)
  message_to_send : Option Message
  receiver_ids : List Nat
  target_gold : Option Coord
  old_target_gold : Option Coord
  target_gold_amount : Nat
  max_gold_seen : Nat
  send_target : Bool
  local_cluster : List Nat
  clusters : List ((Coord × Nat) × List Nat)
  not_received_simple : Nat
  max_gold_receive : Nat
  max_gold_receive_coord : Option Coord
  backup_cluster : List Nat
  consensus_coord : Option Coord
  promised_message : Option Message
  max_id_seen : Nat
  max_piggyback_id_seen : Nat
  promise_count : Nat
  piggybacked : Bool
  reached_majority : Bool
  accept_count : Nat
  majority : Nat
  increment : Nat
  send_pair_request : Bool
  consensus_pair : Option (Nat × Nat)
  pre_pickup_pair_id : Option Nat
  accepted : Bool
  sent_direction_request : Bool
  received_direction : Bool
  turn_direction : Option Direction
  turned : Bool
  planned_actions : List Action
  received_begin : Bool
  combined_pair_id : Option Nat
  send_getout : Bool
  override_target_gold : Bool
  is_second_check : Bool
  carrying_with_wrong_pair : Bool
  current_state : RobotState
deriving DecidableEq

/-- `make_vec` from `src/robot/mod.rs`: the id codes of the whole team minus
the robot's own (97 is the code of the first blue id, 65 of the first red). -/
def make_vec (n : Nat) (x : Nat) (team : Team) : List Nat :=
  match team with
  | Team.Blue => ((List.range n).map (fun i => 97 + i)).filter (fun c => c ≠ x)
  | Team.Red => ((List.range n).map (fun i => 65 + i)).filter (fun c => c ≠ x)

/-- `Robot::new`: the freshly spawned robot; `n_robots` comes from `Config`,
`seed` feeds `Message::new`'s jitter draw for the initial `message_to_send`. -/
def Robot.new (id : Nat) (team : Team) (current_coord : Coord)
    (facing : Direction) (deposit_box_coord : Coord) (n_robots : Nat)
    (seed : Nat) : Robot :=
  { id := id
    team := team
    current_coord := current_coord
    facing := facing
    is_carrying := false
    was_carrying := false
    pair_id := none
    deposit_box_coord := deposit_box_coord
    knowledge_base := []
    message_to_send :=
      some (Message.new id MessageType.PrepareRequest id
        (MessageContent.Coord (some current_coord) (some 0)) seed)
    receiver_ids := make_vec n_robots id team
    target_gold := none
    old_target_gold := none
    target_gold_amount := 0
    max_gold_seen := 0
    send_target := false
    local_cluster := []
    clusters := []
    not_received_simple := n_robots - 1
    max_gold_receive := 0
    max_gold_receive_coord := none
    backup_cluster := []
    consensus_coord := none
    promised_message := none
    max_id_seen := 0
    max_piggyback_id_seen := 0
    promise_count := 0
    piggybacked := false
    reached_majority := false
    accept_count := 0
    majority := n_robots / 2
    increment := id
    send_pair_request := false
    consensus_pair := none
    pre_pickup_pair_id := none
    accepted := false
    sent_direction_request := false
    received_direction := false
    turn_direction := none
    turned := false
    planned_actions := []
    received_begin := true
    combined_pair_id := none
    send_getout := false
    override_target_gold := false
    is_second_check := false
    carrying_with_wrong_pair := false
    current_state := RobotState.ClusterFinding }

/-- `Robot::reset` from `src/robot/mod.rs` (lines 267-324): the end-of-epoch
reset back to the `ClusterFinding` baseline.  Note that `local_cluster` is
*not* cleared (that line is commented out in the source; the callers clear it
separately), and `majority` is re-derived from the new
`not_received_simple = receiver_ids.len()`. -/
def Robot.reset (r : Robot) : Robot :=
  { r with
    is_carrying := false
    was_carrying := false
    pair_id := none
    target_gold := none
    old_target_gold := none
    target_gold_amount := 0
    max_gold_seen := 0
    send_target := false
    clusters := []
    not_received_simple := r.receiver_ids.length
    max_gold_receive := 0
    max_gold_receive_coord := none
    backup_cluster := []
    consensus_coord := none
    promised_message := none
    max_id_seen := 0
    max_piggyback_id_seen := 0
    promise_count := 0
    piggybacked := false
    reached_majority := false
    accept_count := 0
    majority := r.receiver_ids.length / 2
    increment := r.id
    send_pair_request := false
    consensus_pair := none
    pre_pickup_pair_id := none
    accepted := false
    sent_direction_request := false
    received_direction := false
    turned := false
    combined_pair_id := none
    send_getout := false
    override_target_gold := false
    carrying_with_wrong_pair := false
    current_state := RobotState.ClusterFinding
    turn_direction := none }

/-- `Robot::send` from `src/robot/mod.rs` (lines 828-837): a copy of the
message is pushed into each recipient's pending buffer, its timer overwritten
by a fresh `rng.random_range(0..=0)` draw (seeded per recipient). -/
def Robot.send (board : MessageBoard) (message : Message)
    (receiver_ids : List Nat) (jitterSeeds : Nat → Nat) : MessageBoard :=
  receiver_ids.foldl
    (fun bd rid =>
      bd.modifyBox rid
        (fun box =>
          box.send_messages ({ message with timer := randomRange 0 0 (jitterSeeds rid) })))
    board

/-- `Robot::receive`: one `retrieve_messages` call on the robot's own box,
with the random index passed in. -/
def Robot.receive (r : Robot) (board : MessageBoard) (randomIndex : Nat) :
    Option Message × MessageBoard :=
  let result := (board.getBox r.id).retrieve_messages randomIndex
  (result.1, board.modifyBox r.id (fun _ => result.2))

/-- `Robot::scored`: broadcast `Done` to the local cluster. -/
def Robot.scored (r : Robot) (board : MessageBoard) (rng : Nat → Nat) :
    MessageBoard :=
  Robot.send board
    (Message.new r.id MessageType.Done r.id
      (MessageContent.Coord none none) (rng 0))
    r.local_cluster rng

/-- `Robot::plan_move`: push `distance` many `Move` actions. -/
def Robot.plan_move (r : Robot) (distance : Int) : Robot :=
  { r with planned_actions := r.planned_actions ++ List.replicate distance.toNat Action.Move }

/-- `Robot::plan_actions_to_move_to` from `src/robot/mod.rs`
(lines 1252-1300). -/
def Robot.plan_actions_to_move_to (r : Robot) (target : Coord) : Robot :=
  let travel_x : Int := (target.x : Int) - (r.current_coord.x : Int)
  let travel_y : Int := (target.y : Int) - (r.current_coord.y : Int)
  let at_x : Bool := travel_x = 0
  let at_y : Bool := travel_y = 0
  let facing_x : Direction := if travel_x > 0 then Direction.Right else Direction.Left
  let facing_y : Direction := if travel_y > 0 then Direction.Up else Direction.Down
  if r.facing = facing_x then
    let r1 := if at_x then r else r.plan_move travel_x.natAbs
    if at_y then r1
    else
      ({ r1 with planned_actions := r1.planned_actions ++ [Action.Turn facing_y] }).plan_move
        travel_y.natAbs
  else if r.facing = facing_y then
    let r1 := if at_y then r else r.plan_move travel_y.natAbs
    if at_x then r1
    else
      ({ r1 with planned_actions := r1.planned_actions ++ [Action.Turn facing_x] }).plan_move
        travel_x.natAbs
  else
    let r1 :=
      if at_x then r
      else
        ({ r with planned_actions := r.planned_actions ++ [Action.Turn facing_x] }).plan_move
          travel_x.natAbs
    if at_y then r1
    else
      ({ r1 with planned_actions := r1.planned_actions ++ [Action.Turn facing_y] }).plan_move
        travel_y.natAbs

/-- `Robot::set_consensus` from `src/robot/mod.rs` (lines 858-889). -/
def Robot.set_consensus (r : Robot) (consensus : MessageContent) : Robot :=
  match consensus with
  | MessageContent.Coord (some coord) _ => { r with consensus_coord := some coord }
  | MessageContent.Pair a b =>
      let r1 := { r with
        consensus_pair := some (a, b)
        received_begin := false
        consensus_coord := r.target_gold }
      if (r1.id = a ∨ r1.id = b) ∧ r1.target_gold.isSome then
        let r2 := { r1 with planned_actions := [] }
        let r3 :=
          if a > b then { r2 with combined_pair_id := some a }
          else { r2 with combined_pair_id := some b }
        let r4 :=
          if r3.id = a then { r3 with pre_pickup_pair_id := some b }
          else { r3 with pre_pickup_pair_id := some a }
        match r4.target_gold with
        | some tg => r4.plan_actions_to_move_to tg
        | none => r4
      else r1
  | _ => r

/-- Modelled from the spec: `Coord::priority` is called at the singleton
fallback of the `Simple` handler but is defined nowhere under `src/`; the
spec (section 9) only says it is a total-order comparator on candidate
coordinates with otherwise unspecified semantics.  We fix one total order
(lexicographic on `(x, y)`); no claim settled here depends on the choice. -/
def Coord.priority (c other : Coord) : Bool :=
  c.x < other.x ∨ (c.x = other.x ∧ c.y < other.y)

/-- `clusters.entry((coord, amount)).or_insert(vec![]).push(sender)` on the
association-list rendering of the `HashMap`. -/
def clustersPush (cs : List ((Coord × Nat) × List Nat)) (key : Coord × Nat)
    (sender : Nat) : List ((Coord × Nat) × List Nat) :=
  match cs with
  | [] => [(key, [sender])]
  | (k, v) :: rest =>
      if k = key then (k, v ++ [sender]) :: rest
      else (k, v) :: clustersPush rest key sender

/-- The body shared by both arms of the `Simple` handler once a target is
known: record the sender under `clusters`, grow `local_cluster` when the
coordinate matches the own target, and maintain the backup cluster. -/
def Robot.recordSimple (r : Robot) (sender : Nat) (coord : Coord)
    (gold_amount : Nat) : Robot :=
  let r1 := { r with clusters := clustersPush r.clusters (coord, gold_amount) sender }
  let r2 :=
    if r1.target_gold = some coord then
      { r1 with local_cluster := r1.local_cluster ++ [sender] }
    else r1
  let r3 :=
    if gold_amount > r2.max_gold_receive then
      { r2 with
        backup_cluster := []
        max_gold_receive := gold_amount
        max_gold_receive_coord := some coord }
    else r2
  match r3.max_gold_receive_coord with
  | some max_gold_coord =>
      if coord = max_gold_coord then
        { r3 with backup_cluster := r3.backup_cluster ++ [sender] }
      else r3
  | none => r3

/-- The singleton-cluster fallback fold of the `Simple` handler
(lines 1115-1158 of `src/robot/mod.rs`), walking `clusters` in insertion
order and accumulating `(singles, max_key, max_coord)`. -/
def singlesFold (clusters : List ((Coord × Nat) × List Nat))
    (init : List Nat × Option Nat × Option Coord) :
    List Nat × Option Nat × Option Coord :=
  clusters.foldl
    (fun acc kv =>
      let singles := acc.1
      let max_key := acc.2.1
      let max_coord := acc.2.2
      let coord := kv.1.1
      let gold_amount := kv.1.2
      let v := kv.2
      if v.length = 1 then
        let singles1 := singles ++ [v.headD 0]
        let step1 : Option Nat × Option Coord :=
          match max_key with
          | some current =>
              if gold_amount = current then
                match max_coord with
                | some current_coord =>
                    if coord.priority current_coord then (some current, some coord)
                    else (max_key, max_coord)
                | none => (max_key, max_coord)
              else if gold_amount > current then (some current, some coord)
              else (max_key, max_coord)
          | none => (some gold_amount, some coord)
        let max_key2 : Option Nat :=
          some (match step1.1 with
            | some current => if current > gold_amount then current else gold_amount
            | none => gold_amount)
        (singles1, max_key2, step1.2)
      else acc)
    init

/-- `Robot::paxos_receiver` from `src/robot/mod.rs` (lines 891-1246): the
whole message dispatcher.  `none` models a Rust panic (an `unwrap` of a
`None` field on the taken path); the returned board reflects the replies the
handler `send`s.  `rng` feeds the jitter seeds of the constructed messages
(every actually transmitted copy gets its timer overwritten to a
`random_range(0..=0)` draw inside `Robot.send`). -/
def Robot.paxos_receiver (r : Robot) (board : MessageBoard)
    (received_message : Option Message) (rng : Nat → Nat) :
    Option (Robot × MessageBoard) :=
  match received_message with
  | none => some (r, board)
  | some message =>
    match message.msg_type with
    | MessageType.PrepareRequest =>
        if r.current_state = RobotState.Paxos then
          match r.promised_message with
          | some promised_message =>
              if promised_message.id < message.id then
                let refreshed := Message.new promised_message.sender_id
                  promised_message.msg_type message.id
                  promised_message.message_content (rng 0)
                let r1 := { r with promised_message := some refreshed }
                let piggyback_msg := Message.new r.id MessageType.PrepareResponse
                  promised_message.id promised_message.message_content (rng 1)
                some (r1, Robot.send board piggyback_msg [message.sender_id] rng)
              else some (r, board)
          | none =>
              let r1 := { r with promised_message := some message }
              let promised := Message.new r.id MessageType.PrepareResponse
                message.id message.message_content (rng 0)
              some (r1, Robot.send board promised [message.sender_id] rng)
        else some (r, board)
    | MessageType.AcceptRequest =>
        if r.current_state = RobotState.Paxos then
          match r.promised_message with
          | some promised_message =>
              if promised_message.id ≤ message.id ∧ ¬r.accepted then
                let r1 := { r with accepted := true, promised_message := some message }
                let accepted_msg := Message.new r.id MessageType.Accepted
                  message.id message.message_content (rng 0)
                some (r1, Robot.send board accepted_msg [message.sender_id] rng)
              else some (r, board)
          | none => some (r, board)
        else some (r, board)
    | MessageType.PrepareResponse =>
        if r.current_state = RobotState.Paxos then
          let r1 := { r with promise_count := r.promise_count + 1 }
          match r1.message_to_send with
          | none => none
          | some mts =>
            if message.id = mts.id ∧ ¬r1.piggybacked then
              if r1.promise_count > r1.majority ∧ ¬r1.reached_majority then
                let r2 := { r1 with reached_majority := true }
                let accept_request_msg := Message.new r2.id MessageType.AcceptRequest
                  mts.id mts.message_content (rng 0)
                some (r2, Robot.send board accept_request_msg r2.local_cluster rng)
              else some (r1, board)
            else
              let r2 := { r1 with piggybacked := true }
              let adopted := Message.new r2.id MessageType.AcceptRequest
                mts.id message.message_content (rng 0)
              let r3 :=
                if message.id > r2.max_piggyback_id_seen then
                  { r2 with
                    max_piggyback_id_seen := message.id
                    message_to_send := some adopted }
                else r2
              if r3.promise_count > r3.majority ∧ ¬r3.reached_majority then
                let r4 := { r3 with reached_majority := true }
                match r4.message_to_send with
                | none => none
                | some m2 => some (r4, Robot.send board m2 r4.local_cluster rng)
              else some (r3, board)
        else some (r, board)
    | MessageType.Accepted =>
        if r.current_state = RobotState.Paxos then
          let r1 := { r with accept_count := r.accept_count + 1 }
          if r1.accept_count > r1.majority then
            let r2 := r1.set_consensus message.message_content
            let r3 := { r2 with promised_message := some message }
            let board1 := Robot.send board
              (Message.new r3.id MessageType.Confirm r3.id message.message_content (rng 0))
              r3.local_cluster rng
            some ({ r3 with current_state := RobotState.MovingToTarget }, board1)
          else some (r1, board)
        else some (r, board)
    | MessageType.Confirm =>
        if r.current_state = RobotState.Paxos then
          let r1 := r.set_consensus message.message_content
          some ({ r1 with current_state := RobotState.MovingToTarget }, board)
        else some (r, board)
    | MessageType.Nack =>
        if r.current_state = RobotState.Paxos then
          let r1 := { r with max_id_seen := message.id }
          match r1.message_to_send with
          | none => none
          | some mts =>
            let new_message_to_send := Message.new r1.id MessageType.PrepareRequest
              (r1.max_id_seen + r1.increment) mts.message_content (rng 0)
            some ({ r1 with message_to_send := some new_message_to_send },
              Robot.send board new_message_to_send r1.local_cluster rng)
        else some (r, board)
    | MessageType.Simple =>
        let r1 :=
          if ¬r.received_begin then
            ({ r with
              received_begin := true
              receiver_ids := r.local_cluster
              local_cluster := [] }).reset
          else r
        if r1.not_received_simple > 0 then
          let r2 := { r1 with not_received_simple := r1.not_received_simple - 1 }
          let r3 :=
            if r2.not_received_simple = 0 then
              { r2 with current_state := RobotState.Paxos }
            else r2
          let r4 :=
            if r3.target_gold.isSome then
              match message.message_content with
              | MessageContent.Coord (some coord) (some gold_amount) =>
                  r3.recordSimple message.sender_id coord gold_amount
              | _ => r3
            else
              match message.message_content with
              | MessageContent.Coord (some coord) (some gold_amount) =>
                  let rebroadcast := Message.new r3.id MessageType.Simple r3.id
                    (MessageContent.Coord (some coord) (some gold_amount)) (rng 0)
                  let r3a := { r3 with
                    override_target_gold := true
                    target_gold := some coord
                    max_gold_seen := gold_amount
                    target_gold_amount := gold_amount
                    message_to_send := some rebroadcast }
                  r3a.recordSimple message.sender_id coord gold_amount
              | _ => r3
          if r4.not_received_simple = 0 ∧ r4.local_cluster = [] then
            let folded := singlesFold r4.clusters
              ([], some r4.target_gold_amount, r4.target_gold)
            some ({ r4 with
              local_cluster := folded.1
              target_gold := folded.2.2
              current_state := RobotState.Paxos }, board)
          else some (r4, board)
        else some (r1, board)
    | MessageType.Request =>
        if r.target_gold.isSome ∧ ¬r.turned then
          match message.message_content with
          | MessageContent.TurnReq direction coord =>
              match r.target_gold with
              | some tg =>
                  if coord = tg then
                    if r.id < message.sender_id ∨ r.current_coord ≠ tg then
                      let rsp := Message.new r.id MessageType.Ack r.id
                        message.message_content (rng 0)
                      let board1 := Robot.send board rsp [message.sender_id] rng
                      some ({ r with
                        turn_direction := some direction
                        planned_actions := r.planned_actions ++ [Action.Turn direction]
                        received_direction := true
                        turned := true }, board1)
                    else some (r, board)
                  else some (r, board)
              | none => none
          | _ => some (r, board)
        else some (r, board)
    | MessageType.Ack =>
        if r.target_gold.isSome then
          match message.message_content with
          | MessageContent.TurnReq direction coord =>
              match r.target_gold with
              | some tg =>
                  if coord = tg then
                    if r.current_coord = tg then
                      some ({ r with
                        planned_actions := r.planned_actions ++ [Action.Turn direction]
                        turned := true }, board)
                    else some (r, board)
                  else some (r, board)
              | none => none
          | _ => some (r, board)
        else some (r, board)
    | MessageType.Done =>
        if ¬r.received_begin then
          some (({ r with
            received_begin := true
            receiver_ids := r.local_cluster
            local_cluster := [] }).reset, board)
        else some (r, board)
    | MessageType.GetOut =>
        match r.combined_pair_id with
        | some combined_pair_id =>
            match message.message_content with
            | MessageContent.Coord (some get_out_coord) _ =>
                if r.current_coord = get_out_coord ∧ message.id > combined_pair_id then
                  match r.target_gold with
                  | none => none
                  | some tg =>
                      if r.current_coord = tg ∧ (¬r.is_carrying ∨ r.carrying_with_wrong_pair) then
                        let r1 := { r with
                          old_target_gold := r.target_gold
                          received_begin := true
                          receiver_ids := r.local_cluster }
                        let board1 := r1.scored board rng
                        let r2 := ({ r1 with local_cluster := [] }).reset
                        let r3 := { r2 with planned_actions := [] }
                        some (r3.plan_actions_to_move_to r3.deposit_box_coord, board1)
                      else
                        if r.planned_actions = [] ∧ r.current_state ≠ RobotState.AtTarget then
                          some (r.plan_actions_to_move_to r.deposit_box_coord, board)
                        else some (r, board)
                else
                  if r.planned_actions = [] ∧ r.current_state ≠ RobotState.AtTarget then
                    some (r.plan_actions_to_move_to r.deposit_box_coord, board)
                  else some (r, board)
            | _ =>
                if r.planned_actions = [] then
                  some (r.plan_actions_to_move_to r.deposit_box_coord, board)
                else some (r, board)
        | none => some (r, board)

/-- The pair-proposal block at the head of `Robot::make_decision`
(lines 369-383): once all `Simple` broadcasts are in and no proposal was
sent yet, draw a partner from `local_cluster` (the uniform `choose` draw is
modelled by indexing with `chooseSeed % len`), broadcast the
`PrepareRequest`, and fix `majority` to `local_cluster.len() / 2`. -/
def Robot.proposePair (r : Robot) (board : MessageBoard) (chooseSeed : Nat)
    (rng : Nat → Nat) : Robot × MessageBoard :=
  if r.not_received_simple = 0 ∧ ¬r.send_pair_request then
    match r.local_cluster.get? (chooseSeed % r.local_cluster.length) with
    | some pair_id =>
        let m := Message.new r.id MessageType.PrepareRequest r.id
          (MessageContent.Pair r.id pair_id) (rng 0)
        let r1 := { r with message_to_send := some m }
        let board1 := Robot.send board m r1.local_cluster rng
        ({ r1 with
            majority := r1.local_cluster.length / 2
            send_pair_request := true }, board1)
    | none => (r, board)
  else (r, board)

/-- The action-selection tail of `Robot::make_decision` (lines 396-443,
`manual = false`): pop a planned action if any, else the pickup-spam /
carrying / random-turn cascade.  `none` models the `unwrap` panics on the
carrying paths. -/
def Robot.chooseAction (r : Robot) (actionSeed : Nat) : Option (Robot × Action) :=
  match r.planned_actions with
  | a :: rest => some ({ r with planned_actions := rest }, a)
  | [] =>
    if ¬r.is_carrying ∧ r.pre_pickup_pair_id.isSome ∧ r.turned then
      match r.target_gold with
      | none => none
      | some tg =>
          if r.current_coord = tg then some (r, Action.PickUp)
          else
            let r1 := { r with
              received_begin := true
              receiver_ids := r.local_cluster
              local_cluster := [] }
            some (r1.reset, Action.Turn Direction.Right)
    else if r.is_carrying then
      match r.pre_pickup_pair_id, r.pair_id with
      | some pp, some p =>
          if pp = p then
            let r1 := { r with current_state := RobotState.MovingToDropBox }
            some (r1.plan_actions_to_move_to r1.deposit_box_coord, Action.Turn Direction.Up)
          else some ({ r with carrying_with_wrong_pair := true }, Action.PickUp)
      | _, _ => none
    else
      let d : Direction :=
        match randomRange 1 4 actionSeed with
        | 1 => Direction.Left
        | 2 => Direction.Right
        | 3 => Direction.Up
        | _ => Direction.Down
      some (r, Action.Turn d)

/-- `Robot::make_decision` (lines 365-444, `manual = false`), as one protocol
step: the `was_carrying` update, the proposal block, one `receive` draw fed
into `paxos_receiver`, then action selection. -/
def Robot.make_decision (r : Robot) (board : MessageBoard)
    (chooseSeed retrieveIdx actionSeed : Nat) (rng : Nat → Nat) :
    Option (Robot × MessageBoard × Action) :=
  let r0 := if r.is_carrying then { r with was_carrying := true } else r
  let pb := r0.proposePair board chooseSeed rng
  let rcv := pb.1.receive pb.2 retrieveIdx
  match pb.1.paxos_receiver rcv.2 rcv.1 rng with
  | none => none
  | some rb =>
      match rb.1.chooseAction actionSeed with
      | none => none
      | some ra => some (ra.1, rb.2, ra.2)

/-- `Robot::step` (lines 474-509): move one cell in the facing direction,
clamped at the grid border (only the robot's own coordinate is tracked;
the grid-side occupancy bookkeeping is external). -/
def Robot.step (r : Robot) (width height : Nat) : Robot :=
  match r.facing with
  | Direction.Left =>
      if r.current_coord.x > 0 then
        { r with current_coord := { r.current_coord with x := r.current_coord.x - 1 } }
      else r
  | Direction.Right =>
      if r.current_coord.x < width - 1 then
        { r with current_coord := { r.current_coord with x := r.current_coord.x + 1 } }
      else r
  | Direction.Up =>
      if r.current_coord.y < height - 1 then
        { r with current_coord := { r.current_coord with y := r.current_coord.y + 1 } }
      else r
  | Direction.Down =>
      if r.current_coord.y > 0 then
        { r with current_coord := { r.current_coord with y := r.current_coord.y - 1 } }
      else r

/-- `Robot::take_action` (lines 450-468), restricted to the fields carried by
the embedding (the history vectors are write-only). -/
def Robot.take_action (r : Robot) (a : Action) (width height : Nat) : Robot :=
  match a with
  | Action.Turn direction => { r with facing := direction }
  | Action.Move => r.step width height
  | Action.PickUp => r

/-- The per-round scheduler choices for one agent: the partner draw of the
proposal block, the mailbox index draw of `retrieve_messages`, and the seed
of the random-turn fallback. -/
structure TurnChoice where
  chooseSeed : Nat
  retrieveIdx : Nat
  actionSeed : Nat
deriving DecidableEq

/-- A team-level execution state: the robots in their (fixed) turn order and
the shared message board.  One `World.round` is the protocol content of one
`World::next_turn` for a single team: every robot runs `make_decision` and
`take_action` in order, then the board moves pending messages to ready.
(`observe` is not modelled; the executions examined below keep every robot in
a configuration where `observe` does not touch the protocol state: target
already broadcast (`send_target`), no consensus coordinate at observation
time, empty knowledge base.) -/
structure World where
  width : Nat
  height : Nat
  robots : List Robot
  board : MessageBoard

/-- One agent's slot of a round: `make_decision` followed by `take_action`.
`none` propagates a modelled panic. -/
def World.agentTurn (w : World) (i : Nat) (tc : TurnChoice) (rng : Nat → Nat) :
    Option World :=
  match w.robots.get? i with
  | none => some w
  | some r =>
      match r.make_decision w.board tc.chooseSeed tc.retrieveIdx tc.actionSeed rng with
      | none => none
      | some rba =>
          let r1 := rba.1.take_action rba.2.2 w.width w.height
          some { w with robots := w.robots.set i r1, board := rba.2.1 }

/-- One full round: all agents in order, then `MessageBoard::update`. -/
def World.round (w : World) (tcs : List TurnChoice) (rng : Nat → Nat) :
    Option World :=
  let stepped := (List.range w.robots.length).foldl
    (fun acc i =>
      match acc with
      | none => none
      | some wi => wi.agentTurn i ((tcs.get? i).getD ⟨0, 0, 0⟩) rng)
    (some w)
  match stepped with
  | none => none
  | some w1 => some { w1 with board := w1.board.update }

/-- Run a schedule of rounds. -/
def World.run (w : World) (schedule : List (List TurnChoice)) (rng : Nat → Nat) :
    Option World :=
  schedule.foldl
    (fun acc tcs =>
      match acc with
      | none => none
      | some wi => wi.round tcs rng)
    (some w)

/-!
## A concrete execution with two conflicting commits

Four blue agents a, b, c, d (id codes 97, 98, 99, 100) have all observed the
same gold cell `(2,2)` with amount 5 and broadcast their `Simple` target
message in the first round (`Robot::observe` sends it once and sets
`send_target`); the configuration below is the world state right after that
round: every robot is still at its spawn values except for the target
bookkeeping of that broadcast, and each mailbox holds the three teammates'
`Simple` messages (every transmitted copy has timer 0, because
`Robot::send` overwrites the jitter with a `random_range(0..=0)` draw).

The schedule then drives a legal delivery order (one `retrieve_messages`
draw per agent per round) under which the cluster forms, all four agents
propose, and *both* proposer c (pair `(99,97)`) and proposer d (pair
`(97,98)`) collect two `Accepted` replies — strictly more than the common
`majority = ⌊3/2⌋ = 1` — and broadcast `Confirm`.
-/

/-- The `Simple` target broadcast of agent `x` for gold cell `(2,2)`,
amount 5 (timer 0, as transmitted). -/
def c1Simple (x : Nat) : Message :=
  { sender_id := x
    msg_type := MessageType.Simple
    id := x
    message_content := MessageContent.Coord (some ⟨2, 2⟩) (some 5)
    timer := 0 }

/-- Mailbox holding the teammates' `Simple` broadcasts. -/
def c1Box (others : List Nat) : MessageBox :=
  { current_messages := others.map c1Simple, new_messages := [] }

/-- The message board after the initial gossip round. -/
def c1Board : MessageBoard :=
  [(97, c1Box [98, 99, 100]),
   (98, c1Box [97, 99, 100]),
   (99, c1Box [97, 98, 100]),
   (100, c1Box [97, 98, 99])]

/-- Agent state after broadcasting its own target in the gossip round:
spawn state plus the `observe`-side target bookkeeping. -/
def c1Robot (id : Nat) (coord : Coord) : Robot :=
  { Robot.new id Team.Blue coord Direction.Up ⟨0, 0⟩ 4 0 with
    target_gold := some ⟨2, 2⟩
    target_gold_amount := 5
    max_gold_seen := 5
    send_target := true
    message_to_send := some (c1Simple id) }

/-- The four-agent world after the gossip round. -/
def c1World : World :=
  { width := 5
    height := 5
    robots := [c1Robot 97 ⟨0, 0⟩, c1Robot 98 ⟨1, 0⟩, c1Robot 99 ⟨0, 1⟩, c1Robot 100 ⟨1, 1⟩]
    board := c1Board }

/-- The delivery schedule (per round, per agent: partner draw, mailbox index
draw, turn draw).  Rounds one to three deliver the `Simple` gossip; round
four is the proposal round; the remaining rounds deliver promises, accept
requests and accepts in an order the random transport is free to produce. -/
def c1Schedule : List (List TurnChoice) :=
  [ [⟨0, 0, 0⟩, ⟨0, 0, 0⟩, ⟨0, 0, 0⟩, ⟨0, 0, 0⟩],
    [⟨0, 0, 0⟩, ⟨0, 0, 0⟩, ⟨0, 0, 0⟩, ⟨0, 0, 0⟩],
    [⟨0, 0, 0⟩, ⟨0, 0, 0⟩, ⟨0, 0, 0⟩, ⟨0, 0, 0⟩],
    [⟨0, 0, 0⟩, ⟨0, 0, 0⟩, ⟨0, 0, 0⟩, ⟨1, 0, 0⟩],
    [⟨0, 1, 0⟩, ⟨0, 0, 0⟩, ⟨0, 2, 0⟩, ⟨0, 2, 0⟩],
    [⟨0, 0, 0⟩, ⟨0, 0, 0⟩, ⟨0, 2, 0⟩, ⟨0, 2, 0⟩],
    [⟨0, 1, 0⟩, ⟨0, 0, 0⟩, ⟨0, 2, 0⟩, ⟨0, 0, 0⟩],
    [⟨0, 1, 0⟩, ⟨0, 0, 0⟩, ⟨0, 2, 0⟩, ⟨0, 1, 0⟩],
    [⟨0, 1, 0⟩, ⟨0, 0, 0⟩, ⟨0, 3, 0⟩, ⟨0, 1, 0⟩],
    [⟨0, 0, 0⟩, ⟨0, 0, 0⟩, ⟨0, 2, 0⟩, ⟨0, 1, 0⟩],
    [⟨0, 0, 0⟩, ⟨0, 0, 0⟩, ⟨0, 2, 0⟩, ⟨0, 1, 0⟩] ]

/-- The observable commitment data at the end of the run: per robot, the
adopted consensus pair, the consensus coordinate and the state-machine
state. -/
def c1Outcome : Option (List (Option (Nat × Nat) × Option Coord × RobotState)) :=
  (World.run c1World c1Schedule (fun _ => 0)).map
    (fun w => w.robots.map (fun r => (r.consensus_pair, r.consensus_coord, r.current_state)))

/-- The quorum evidence at the end of the run: per robot its `Accepted` tally
and its `majority` threshold, plus the `Confirm` broadcasts that reached
agent a's mailbox. -/
def c1Quorums : Option (List (Nat × Nat) × List (MessageType × Nat × Nat × MessageContent)) :=
  (World.run c1World c1Schedule (fun _ => 0)).map
    (fun w =>
      (w.robots.map (fun r => (r.accept_count, r.majority)),
       (w.board.getBox 97).current_messages.map
         (fun m => (m.msg_type, m.id, m.sender_id, m.message_content))))

/-- C1: the claim asserts that for every execution and target at most one
unordered agent pair is ever committed per epoch and no two committed pairs
share an agent.  The code violates this: in the concrete execution
`c1World`/`c1Schedule` (four agents, one shared target `(2,2)`, one epoch),
proposer c commits pair `(99, 97)` and proposer d commits pair `(97, 98)` —
two different unordered pairs for the same target, sharing agent 97 — each
after collecting two `Accepted` replies (strictly more than its
`majority = 1`) and broadcasting `Confirm`. -/
theorem c1_two_pairs_committed_for_one_target :
    c1Outcome =
      some [(none, none, RobotState.Paxos),
            (none, none, RobotState.Paxos),
            (some (99, 97), some ⟨2, 2⟩, RobotState.MovingToTarget),
            (some (97, 98), some ⟨2, 2⟩, RobotState.MovingToTarget)] ∧
    c1Quorums =
      some ([(0, 1), (0, 1), (2, 1), (2, 1)],
            [(MessageType.Confirm, 99, 99, MessageContent.Pair 99 97),
             (MessageType.Confirm, 100, 100, MessageContent.Pair 97 98)]) ∧
    ((99, 97) ≠ ((97, 98) : Nat × Nat) ∧ (99, 97) ≠ ((98, 97) : Nat × Nat)) := by
  refine ⟨by decide, by decide, by decide⟩

/-!
## Supporting lemmas about the transport and the planner
-/

/-- The `random_range(0..=0)` draw of `Robot::send` is `0` whatever the seed. -/
theorem randomRange_self_zero (seed : Nat) : randomRange 0 0 seed = 0 := by
  simp [randomRange, Nat.mod_one]

/-- Looking up a box after a pointwise update. -/
theorem MessageBoard.getBox_modifyBox (bd : MessageBoard) (rid i : Nat)
    (f : MessageBox → MessageBox) :
    (bd.modifyBox rid f).getBox i =
      if i = rid then f (bd.getBox i) else bd.getBox i := by
  induction bd with
  | nil =>
      simp only [MessageBoard.modifyBox, MessageBoard.getBox]
      rcases eq_or_ne i rid with h | h
      · simp [h]
      · simp [h, Ne.symm h]
  | cons hd tl ih =>
      obtain ⟨id, box⟩ := hd
      simp only [MessageBoard.modifyBox]
      rcases eq_or_ne id rid with h1 | h1
      · subst h1
        simp only [if_pos rfl, MessageBoard.getBox]
        rcases eq_or_ne id i with h2 | h2
        · simp [h2]
        · simp [h2, Ne.symm h2]
      · simp only [if_neg h1, MessageBoard.getBox]
        rcases eq_or_ne id i with h2 | h2
        · subst h2
          simp [h1]
        · simp [h2, ih]

/-- Effect of `Robot::send` on any recipient's pending buffer: one copy per
occurrence in the receiver list, every copy with timer `0` (the
`random_range(0..=0)` overwrite). -/
theorem Robot.send_getBox_new (recv : List Nat) (bd : MessageBoard) (m : Message)
    (js : Nat → Nat) (i : Nat) :
    ((Robot.send bd m recv js).getBox i).new_messages =
      (bd.getBox i).new_messages ++
        List.replicate (recv.count i) ({ m with timer := 0 }) := by
  induction recv generalizing bd with
  | nil => simp [Robot.send]
  | cons rid rest ih =>
      have hstep : Robot.send bd m (rid :: rest) js =
          Robot.send (bd.modifyBox rid
            (fun box => box.send_messages ({ m with timer := randomRange 0 0 (js rid) })))
            m rest js := rfl
      rw [hstep, ih, MessageBoard.getBox_modifyBox]
      rcases eq_or_ne i rid with h | h
      · subst h
        simp [MessageBox.send_messages, randomRange_self_zero, List.count_cons,
          List.replicate_succ, List.append_assoc]
      · simp [h, List.count_cons, Ne.symm h]

/-- `Robot::send` leaves every ready buffer untouched. -/
theorem Robot.send_getBox_current (recv : List Nat) (bd : MessageBoard) (m : Message)
    (js : Nat → Nat) (i : Nat) :
    ((Robot.send bd m recv js).getBox i).current_messages =
      (bd.getBox i).current_messages := by
  induction recv generalizing bd with
  | nil => rfl
  | cons rid rest ih =>
      have hstep : Robot.send bd m (rid :: rest) js =
          Robot.send (bd.modifyBox rid
            (fun box => box.send_messages ({ m with timer := randomRange 0 0 (js rid) })))
            m rest js := rfl
      rw [hstep, ih, MessageBoard.getBox_modifyBox]
      rcases eq_or_ne i rid with h | h
      · subst h; simp [MessageBox.send_messages]
      · simp [h]

/-- The move planner only ever touches `planned_actions`. -/
theorem Robot.plan_actions_struct (r : Robot) (t : Coord) :
    ∃ pa, r.plan_actions_to_move_to t = { r with planned_actions := pa } := by
  simp only [Robot.plan_actions_to_move_to, Robot.plan_move]
  split_ifs <;> exact ⟨_, rfl⟩

/-- `Robot::set_consensus` on a `Pair` payload: the pair is adopted, the
consensus coordinate becomes the current target, `received_begin` is
lowered, and only the planner/pair-bookkeeping fields can otherwise
change. -/
theorem Robot.set_consensus_Pair_struct (r : Robot) (a b : Nat) :
    ∃ pa cpi ppi,
      r.set_consensus (MessageContent.Pair a b) =
        { r with
          consensus_pair := some (a, b)
          received_begin := false
          consensus_coord := r.target_gold
          planned_actions := pa
          combined_pair_id := cpi
          pre_pickup_pair_id := ppi } := by
  simp only [Robot.set_consensus]
  split_ifs
  all_goals try exact ⟨_, _, _, rfl⟩
  all_goals
    split
    all_goals try exact ⟨_, _, _, rfl⟩
  all_goals
    obtain ⟨pa, hpa⟩ := Robot.plan_actions_struct _ _
    rw [hpa]
    exact ⟨_, _, _, rfl⟩

/-!
## The remaining claims
-/

/-- C2: `retrieve_messages` returns `none` and changes nothing when the ready
buffer is empty; otherwise, for the drawn index, a timer-0 entry is removed
(exactly that entry) and returned, and a positive-timer entry has its timer
decremented in place with nothing removed and nothing returned. -/
theorem c2_retrieve_messages_cases (box : MessageBox) (i : Nat) :
    (box.current_messages = [] → box.retrieve_messages i = (none, box)) ∧
    (∀ m, box.current_messages.get? i = some m →
      (m.timer = 0 →
        box.retrieve_messages i =
          (some m, { box with current_messages := box.current_messages.eraseIdx i })) ∧
      (m.timer ≠ 0 →
        box.retrieve_messages i =
          (none, { box with current_messages :=
            box.current_messages.set i ({ m with timer := m.timer - 1 }) }))) := by
  constructor
  · intro h
    simp [MessageBox.retrieve_messages, h]
  · intro m hm
    have hne : box.current_messages.isEmpty = false := by
      cases hl : box.current_messages with
      | nil => rw [hl] at hm; simp at hm
      | cons a l => simp [hl]
    have hm2 : box.current_messages[i]? = some m := by
      rw [← List.get?_eq_getElem?]; exact hm
    constructor
    · intro ht
      simp [MessageBox.retrieve_messages, hne, hm2, ht]
    · intro ht
      simp [MessageBox.retrieve_messages, hne, hm2, ht]

/-- Witness for C2 at concrete mailboxes: an empty ready buffer delivers
nothing; a timer-0 entry is delivered and removed; a timer-3 entry is
decremented in place. -/
theorem c2_retrieve_messages_cases_witness :
    (MessageBox.mk [] [⟨97, MessageType.Done, 97, MessageContent.Coord none none, 0⟩]).retrieve_messages 0 =
      (none, MessageBox.mk [] [⟨97, MessageType.Done, 97, MessageContent.Coord none none, 0⟩]) ∧
    (MessageBox.mk [⟨97, MessageType.Done, 97, MessageContent.Coord none none, 0⟩] []).retrieve_messages 0 =
      (some ⟨97, MessageType.Done, 97, MessageContent.Coord none none, 0⟩, MessageBox.mk [] []) ∧
    (MessageBox.mk [⟨97, MessageType.Done, 97, MessageContent.Coord none none, 3⟩] []).retrieve_messages 0 =
      (none, MessageBox.mk [⟨97, MessageType.Done, 97, MessageContent.Coord none none, 2⟩] []) := by
  refine ⟨(c2_retrieve_messages_cases _ 0).1 rfl, ?_, ?_⟩
  · exact ((c2_retrieve_messages_cases
      (MessageBox.mk [⟨97, MessageType.Done, 97, MessageContent.Coord none none, 0⟩] []) 0).2
      ⟨97, MessageType.Done, 97, MessageContent.Coord none none, 0⟩ rfl).1 rfl
  · exact ((c2_retrieve_messages_cases
      (MessageBox.mk [⟨97, MessageType.Done, 97, MessageContent.Coord none none, 3⟩] []) 0).2
      ⟨97, MessageType.Done, 97, MessageContent.Coord none none, 3⟩ rfl).2 (by decide)

/-- Repeated delivery attempts on one mailbox (one `retrieve_messages` call
per round, the index draw hitting the first entry), collecting the delivered
messages in order. -/
def retrieveRun : Nat → MessageBox → List Message × MessageBox
  | 0, box => ([], box)
  | Nat.succ n, box =>
      let step := box.retrieve_messages 0
      let rest := retrieveRun n step.2
      (step.1.toList ++ rest.1, rest.2)

/-- C5 counterexample: the claim promises delivery within `j + 1` epoch
advances.  With two pending messages of jitter `0` in one mailbox, after the
epoch advance the recipient's single delivery attempt of the round removes
one of them; after the next advance the other timer-0 message is still
sitting undelivered in the ready buffer, so its `0 + 1 = 1`-advance deadline
has passed. -/
theorem c5_counterexample_two_messages :
    (((MessageBox.mk []
        [⟨97, MessageType.Done, 97, MessageContent.Coord none none, 0⟩,
         ⟨98, MessageType.Done, 98, MessageContent.Coord none none, 0⟩]).update_messages).retrieve_messages 0).1 =
      some ⟨97, MessageType.Done, 97, MessageContent.Coord none none, 0⟩ ∧
    (((((MessageBox.mk []
        [⟨97, MessageType.Done, 97, MessageContent.Coord none none, 0⟩,
         ⟨98, MessageType.Done, 98, MessageContent.Coord none none, 0⟩]).update_messages).retrieve_messages 0).2.update_messages).current_messages =
      [⟨98, MessageType.Done, 98, MessageContent.Coord none none, 0⟩]) ∧
    (⟨98, MessageType.Done, 98, MessageContent.Coord none none, 0⟩ : Message).timer = 0 ∧
    (⟨97, MessageType.Done, 97, MessageContent.Coord none none, 0⟩ : Message) ≠
      ⟨98, MessageType.Done, 98, MessageContent.Coord none none, 0⟩ := by
  exact ⟨by decide, by decide, by decide, by decide⟩

/-- C5 amended: a message that is alone in its mailbox with jitter `j` is
delivered exactly once, on the `(j+1)`-th delivery attempt after the epoch
advance (no earlier attempt delivers, the entry is consumed on delivery);
with several ready messages the `j+1`-epoch bound fails, because only one
entry is examined per round. -/
theorem c5_sole_message_delivery (j : Nat) :
    ∀ m : Message, m.timer = j →
      retrieveRun (j + 1) (MessageBox.mk [m] []) =
        ([{ m with timer := 0 }], MessageBox.mk [] []) ∧
      (∀ k, k ≤ j → (retrieveRun k (MessageBox.mk [m] [])).1 = []) := by
  induction j with
  | zero =>
      intro m h
      obtain ⟨s, ty, i, c, tm⟩ := m
      simp only at h
      subst h
      constructor
      · rfl
      · intro k hk
        have hk0 : k = 0 := Nat.le_zero.mp hk
        subst hk0
        rfl
  | succ n ih =>
      intro m h
      obtain ⟨s, ty, i, c, tm⟩ := m
      simp only at h
      subst h
      obtain ⟨ih1, ih2⟩ := ih ⟨s, ty, i, c, n⟩ rfl
      constructor
      · have hunfold : retrieveRun (n + 1 + 1) (MessageBox.mk [⟨s, ty, i, c, n + 1⟩] []) =
            ((retrieveRun (n + 1) (MessageBox.mk [⟨s, ty, i, c, n⟩] [])).1,
             (retrieveRun (n + 1) (MessageBox.mk [⟨s, ty, i, c, n⟩] [])).2) := rfl
        rw [hunfold, ih1]
      · intro k hk
        cases k with
        | zero => rfl
        | succ k1 =>
            have hk1 : k1 ≤ n := Nat.succ_le_succ_iff.mp hk
            have hunfold : (retrieveRun (k1 + 1) (MessageBox.mk [⟨s, ty, i, c, n + 1⟩] [])).1 =
                (retrieveRun k1 (MessageBox.mk [⟨s, ty, i, c, n⟩] [])).1 := rfl
            rw [hunfold, ih2 k1 hk1]

/-- Witness for C5 (amended) at jitter 2: three attempts deliver the message
(with its counted-down timer), two attempts deliver nothing. -/
theorem c5_sole_message_delivery_witness :
    retrieveRun 3 (MessageBox.mk
        [⟨97, MessageType.Done, 97, MessageContent.Coord none none, 2⟩] []) =
      ([⟨97, MessageType.Done, 97, MessageContent.Coord none none, 0⟩],
        MessageBox.mk [] []) ∧
    (retrieveRun 2 (MessageBox.mk
        [⟨97, MessageType.Done, 97, MessageContent.Coord none none, 2⟩] [])).1 = [] := by
  exact ⟨(c5_sole_message_delivery 2 _ rfl).1, (c5_sole_message_delivery 2 _ rfl).2 2 (by decide)⟩

/-- C6: the claim says `Robot::send` enqueues each copy with a jitter drawn
uniformly from `[0, 3]`.  The code instead overwrites the timer with
`rng.random_range(0..=0)`, which is `0` for every seed, so every enqueued
copy has jitter exactly `0` (the `[0, 3]` draw done inside `Message::new` is
discarded); the pending buffers grow by one timer-0 copy per occurrence of
the recipient in the receiver list. -/
theorem c6_send_enqueues_zero_jitter (board : MessageBoard) (message : Message)
    (receiver_ids : List Nat) (jitterSeeds : Nat → Nat) (i : Nat) :
    (∀ seed, randomRange 0 0 seed = 0) ∧
    ((Robot.send board message receiver_ids jitterSeeds).getBox i).new_messages =
      (board.getBox i).new_messages ++
        List.replicate (receiver_ids.count i) ({ message with timer := 0 }) :=
  ⟨randomRange_self_zero, Robot.send_getBox_new receiver_ids board message jitterSeeds i⟩

/-- C7 counterexample: the pending buffer is a `Vec`, not a set — sending the
same message twice to the same mailbox leaves two equal pending entries, so
a mailbox can hold two equal messages at once. -/
theorem c7_counterexample_duplicate_pending :
    ((MessageBox.new.send_messages
        ⟨97, MessageType.Simple, 97, MessageContent.Coord (some ⟨2, 2⟩) (some 5), 0⟩).send_messages
        ⟨97, MessageType.Simple, 97, MessageContent.Coord (some ⟨2, 2⟩) (some 5), 0⟩).new_messages.count
      ⟨97, MessageType.Simple, 97, MessageContent.Coord (some ⟨2, 2⟩) (some 5), 0⟩ = 2 := by
  decide

/-- C7 amended: `send_messages` is a plain `Vec::push` — multiset semantics.
Each send appends the message, incrementing its multiplicity by one;
identical messages do not collapse. -/
theorem c7_send_messages_multiset (box : MessageBox) (m : Message) :
    (box.send_messages m).new_messages = box.new_messages ++ [m] ∧
    (box.send_messages m).new_messages.count m = box.new_messages.count m + 1 ∧
    (box.send_messages m).current_messages = box.current_messages := by
  refine ⟨rfl, ?_, rfl⟩
  simp [MessageBox.send_messages]

/-- Projections of `set_consensus` on a `Pair` payload. -/
theorem Robot.set_consensus_Pair_fields (r : Robot) (a b : Nat) :
    (r.set_consensus (MessageContent.Pair a b)).consensus_pair = some (a, b) ∧
    (r.set_consensus (MessageContent.Pair a b)).current_state = r.current_state ∧
    (r.set_consensus (MessageContent.Pair a b)).accept_count = r.accept_count ∧
    (r.set_consensus (MessageContent.Pair a b)).local_cluster = r.local_cluster ∧
    (r.set_consensus (MessageContent.Pair a b)).id = r.id := by
  obtain ⟨pa, cpi, ppi, hsc⟩ := Robot.set_consensus_Pair_struct r a b
  rw [hsc]
  exact ⟨rfl, rfl, rfl, rfl, rfl⟩

/-- Projections of the move planner: everything but `planned_actions` is
kept. -/
theorem Robot.plan_fields (r : Robot) (t : Coord) :
    (r.plan_actions_to_move_to t).combined_pair_id = r.combined_pair_id ∧
    (r.plan_actions_to_move_to t).current_state = r.current_state ∧
    (r.plan_actions_to_move_to t).target_gold = r.target_gold ∧
    (r.plan_actions_to_move_to t).received_begin = r.received_begin := by
  obtain ⟨pa, hpa⟩ := Robot.plan_actions_struct r t
  rw [hpa]
  exact ⟨rfl, rfl, rfl, rfl⟩

/-- C3: `majority` is fixed to `⌊|local_cluster| / 2⌋` when the first
`PrepareRequest` is sent, and an agent in the `Paxos` state commits on an
`Accepted` reply — adopting the pair, broadcasting `Confirm` to the cluster
and moving to `MovingToTarget` — exactly when its `Accepted` tally first
strictly exceeds `majority`; below that threshold only the tally grows. -/
theorem c3_majority_and_commit (r : Robot) (board : MessageBoard)
    (chooseSeed : Nat) (rng : Nat → Nat) (msg : Message) (a b : Nat)
    (hty : msg.msg_type = MessageType.Accepted)
    (hc : msg.message_content = MessageContent.Pair a b) :
    (r.not_received_simple = 0 → r.send_pair_request = false → r.local_cluster ≠ [] →
      ((r.proposePair board chooseSeed rng).1.majority = r.local_cluster.length / 2 ∧
       (r.proposePair board chooseSeed rng).1.send_pair_request = true)) ∧
    (r.current_state = RobotState.Paxos →
      ((r.accept_count + 1 > r.majority →
        ((r.paxos_receiver board (some msg) rng).map
            (fun res => (res.1.consensus_pair, res.1.current_state, res.1.accept_count)) =
          some (some (a, b), RobotState.MovingToTarget, r.accept_count + 1) ∧
        (∀ rid, (r.paxos_receiver board (some msg) rng).map
            (fun res => (res.2.getBox rid).new_messages) =
          some ((board.getBox rid).new_messages ++
            List.replicate (r.local_cluster.count rid)
              ({ sender_id := r.id, msg_type := MessageType.Confirm, id := r.id,
                 message_content := MessageContent.Pair a b, timer := 0 }))))) ∧
      (r.accept_count + 1 ≤ r.majority →
        r.paxos_receiver board (some msg) rng =
          some ({ r with accept_count := r.accept_count + 1 }, board)))) := by
  obtain ⟨sender, ty, pid, content, timer⟩ := msg
  cases hty
  cases hc
  constructor
  · intro h1 h2 h3
    have hlen : 0 < r.local_cluster.length := List.length_pos.mpr h3
    have hmod : chooseSeed % r.local_cluster.length < r.local_cluster.length :=
      Nat.mod_lt _ hlen
    simp [Robot.proposePair, h1, h2, List.getElem?_eq_getElem hmod]
  · intro hst
    constructor
    · intro hgt
      have hiff : r.accept_count + 1 > r.majority := hgt
      constructor
      · simp [Robot.paxos_receiver, hst, hiff]
        exact ⟨(Robot.set_consensus_Pair_fields _ _ _).1,
          (Robot.set_consensus_Pair_fields _ _ _).2.2.1⟩
      · intro rid
        simp [Robot.paxos_receiver, hst, hiff]
        rw [(Robot.set_consensus_Pair_fields _ _ _).2.2.2.1]
        simp [Robot.send_getBox_new, Message.new]
        exact Or.inr ((Robot.set_consensus_Pair_fields _ _ _).2.2.2.2)
    · intro hle
      have hiff : ¬(r.accept_count + 1 > r.majority) := Nat.not_lt.mpr hle
      simp [Robot.paxos_receiver, hst, hiff]

/-- Witness for C3: a proposer with a two-member cluster fixes
`majority = 1`; an agent with `majority = 0` and an empty tally commits on
the first `Accepted`; an agent with `majority = 2` and an empty tally merely
counts. -/
theorem c3_majority_and_commit_witness :
    (({ Robot.new 97 Team.Blue ⟨0, 0⟩ Direction.Up ⟨0, 0⟩ 4 0 with
        not_received_simple := 0
        local_cluster := [98, 99] } : Robot).proposePair [] 0 (fun _ => 0)).1.majority = 1 ∧
    (({ Robot.new 97 Team.Blue ⟨0, 0⟩ Direction.Up ⟨0, 0⟩ 4 0 with
        current_state := RobotState.Paxos
        majority := 0 } : Robot).paxos_receiver []
      (some ⟨98, MessageType.Accepted, 98, MessageContent.Pair 97 98, 0⟩)
      (fun _ => 0)).map
        (fun res => (res.1.consensus_pair, res.1.current_state, res.1.accept_count)) =
      some (some (97, 98), RobotState.MovingToTarget, 1) ∧
    ({ Robot.new 97 Team.Blue ⟨0, 0⟩ Direction.Up ⟨0, 0⟩ 4 0 with
        current_state := RobotState.Paxos
        majority := 2 } : Robot).paxos_receiver []
      (some ⟨98, MessageType.Accepted, 98, MessageContent.Pair 97 98, 0⟩)
      (fun _ => 0) =
      some ({ Robot.new 97 Team.Blue ⟨0, 0⟩ Direction.Up ⟨0, 0⟩ 4 0 with
        current_state := RobotState.Paxos
        majority := 2
        accept_count := 1 }, []) := by
  refine ⟨?_, ?_, ?_⟩
  · exact ((c3_majority_and_commit _ [] 0 (fun _ => 0)
      ⟨98, MessageType.Accepted, 98, MessageContent.Pair 97 98, 0⟩ 97 98 rfl rfl).1
      rfl rfl (by decide)).1
  · exact (((c3_majority_and_commit _ [] 0 (fun _ => 0)
      ⟨98, MessageType.Accepted, 98, MessageContent.Pair 97 98, 0⟩ 97 98 rfl rfl).2
      rfl).1 (by decide)).1
  · exact ((c3_majority_and_commit _ [] 0 (fun _ => 0)
      ⟨98, MessageType.Accepted, 98, MessageContent.Pair 97 98, 0⟩ 97 98 rfl rfl).2
      rfl).2 (by decide)

/-- C4 counterexample: the claim says a proposer adopts the payload of every
piggybacked `PrepareResponse` (one whose id differs from its own proposal's
id).  It does not: the handler adopts only when the response id strictly
exceeds `max_piggyback_id_seen`.  A proposer that already adopted from an
id-100 piggyback (so `max_piggyback_id_seen = 100`) and then receives a
piggybacked response with id 98 and payload `Pair 97 98` keeps its previous
`AcceptRequest` content `Pair 101 97`. -/
theorem c4_counterexample_lower_id_not_adopted :
    (({ Robot.new 101 Team.Blue ⟨0, 0⟩ Direction.Up ⟨0, 0⟩ 4 0 with
        current_state := RobotState.Paxos
        piggybacked := true
        max_piggyback_id_seen := 100
        message_to_send :=
          some ⟨101, MessageType.AcceptRequest, 101, MessageContent.Pair 101 97, 0⟩ } : Robot).paxos_receiver
      [] (some ⟨98, MessageType.PrepareResponse, 98, MessageContent.Pair 97 98, 0⟩)
      (fun _ => 0)).map
        (fun res => res.1.message_to_send.map (fun m => m.message_content)) =
      some (some (MessageContent.Pair 101 97)) ∧
    (98 : Nat) ≠ 101 ∧
    MessageContent.Pair 101 97 ≠ MessageContent.Pair 97 98 := by
  exact ⟨by decide, by decide, by decide⟩

/-- C4 amended: a promise holder piggybacks the promised payload (and its
promised id) back to the higher-id proposer, and the proposer adopts the
piggybacked payload as its eventual `AcceptRequest` content *provided* the
response's id strictly exceeds `max_piggyback_id_seen` (initially 0, so the
first piggyback with a positive id is always adopted); reaching the quorum
in that piggybacked state broadcasts exactly that adopted payload. -/
theorem c4_piggyback_payload_adoption (r : Robot) (board : MessageBoard)
    (rng : Nat → Nat) (msg : Message) (pm mts : Message) :
    (r.current_state = RobotState.Paxos → msg.msg_type = MessageType.PrepareRequest →
      r.promised_message = some pm → pm.id < msg.id →
      (r.paxos_receiver board (some msg) rng).map
          (fun res =>
            ((res.2.getBox msg.sender_id).new_messages,
             res.1.promised_message.map (fun m => (m.id, m.message_content)))) =
        some ((board.getBox msg.sender_id).new_messages ++
            [{ sender_id := r.id, msg_type := MessageType.PrepareResponse,
               id := pm.id, message_content := pm.message_content, timer := 0 }],
          some (msg.id, pm.message_content))) ∧
    (r.current_state = RobotState.Paxos → msg.msg_type = MessageType.PrepareResponse →
      r.message_to_send = some mts → msg.id ≠ mts.id →
      msg.id > r.max_piggyback_id_seen →
      ((r.paxos_receiver board (some msg) rng).map
          (fun res => res.1.message_to_send.map (fun m => (m.msg_type, m.id, m.message_content))) =
        some (some (MessageType.AcceptRequest, mts.id, msg.message_content)) ∧
      (r.promise_count + 1 > r.majority → r.reached_majority = false →
        ∀ rid, (r.paxos_receiver board (some msg) rng).map
            (fun res => (res.2.getBox rid).new_messages) =
          some ((board.getBox rid).new_messages ++
            List.replicate (r.local_cluster.count rid)
              ({ sender_id := r.id, msg_type := MessageType.AcceptRequest,
                 id := mts.id, message_content := msg.message_content, timer := 0 }))))) := by
  obtain ⟨sender, ty, pid, content, timer⟩ := msg
  constructor
  · intro hst hty hpm hlt
    cases hty
    simp only at hlt
    simp [Robot.paxos_receiver, hst, hpm, hlt, Robot.send_getBox_new, Message.new]
  · intro hst hty hmts hne hgt
    cases hty
    simp only at hne hgt
    constructor
    · cases hb : r.reached_majority with
      | false =>
          by_cases hq : r.promise_count + 1 > r.majority
          · simp [Robot.paxos_receiver, hst, hmts, hne, hgt, hb, hq, Message.new]
          · simp [Robot.paxos_receiver, hst, hmts, hne, hgt, hb, hq, Message.new]
      | true =>
          simp [Robot.paxos_receiver, hst, hmts, hne, hgt, hb, Message.new]
    · intro hq hrm rid
      simp [Robot.paxos_receiver, hst, hmts, hne, hgt, hq, hrm, Message.new,
        Robot.send_getBox_new]

/-- Witness for C4 (amended): a receiver promised to id 99 piggybacks payload
`Pair 99 97` with id 99 when a fresh id-101 proposal arrives; a proposer with
no previous piggyback (threshold 0) adopts an id-99 piggybacked payload into
its pending `AcceptRequest`. -/
theorem c4_piggyback_payload_adoption_witness :
    (({ Robot.new 98 Team.Blue ⟨0, 0⟩ Direction.Up ⟨0, 0⟩ 4 0 with
        current_state := RobotState.Paxos
        promised_message :=
          some ⟨99, MessageType.PrepareRequest, 99, MessageContent.Pair 99 97, 0⟩ } : Robot).paxos_receiver
      [] (some ⟨101, MessageType.PrepareRequest, 101, MessageContent.Pair 101 98, 0⟩)
      (fun _ => 0)).map
        (fun res =>
          ((res.2.getBox 101).new_messages,
           res.1.promised_message.map (fun m => (m.id, m.message_content)))) =
      some ([{ sender_id := 98, msg_type := MessageType.PrepareResponse,
               id := 99, message_content := MessageContent.Pair 99 97, timer := 0 }],
        some (101, MessageContent.Pair 99 97)) ∧
    (({ Robot.new 101 Team.Blue ⟨0, 0⟩ Direction.Up ⟨0, 0⟩ 4 0 with
        current_state := RobotState.Paxos
        message_to_send :=
          some ⟨101, MessageType.PrepareRequest, 101, MessageContent.Pair 101 97, 0⟩ } : Robot).paxos_receiver
      [] (some ⟨98, MessageType.PrepareResponse, 99, MessageContent.Pair 99 97, 0⟩)
      (fun _ => 0)).map
        (fun res => res.1.message_to_send.map (fun m => (m.msg_type, m.id, m.message_content))) =
      some (some (MessageType.AcceptRequest, 101, MessageContent.Pair 99 97)) := by
  constructor
  · exact (c4_piggyback_payload_adoption _ [] (fun _ => 0)
      ⟨101, MessageType.PrepareRequest, 101, MessageContent.Pair 101 98, 0⟩
      ⟨99, MessageType.PrepareRequest, 99, MessageContent.Pair 99 97, 0⟩
      ⟨99, MessageType.PrepareRequest, 99, MessageContent.Pair 99 97, 0⟩).1
      rfl rfl rfl (by decide)
  · exact ((c4_piggyback_payload_adoption _ [] (fun _ => 0)
      ⟨98, MessageType.PrepareResponse, 99, MessageContent.Pair 99 97, 0⟩
      ⟨98, MessageType.PrepareResponse, 99, MessageContent.Pair 99 97, 0⟩
      ⟨101, MessageType.PrepareRequest, 101, MessageContent.Pair 101 97, 0⟩).2
      rfl rfl rfl (by decide) (by decide)).1

/-- C8: an agent holding a pair key evicts on `GetOut` — resets and paths
back toward its deposit box, broadcasting `Done` — exactly when it stands on
the message's coordinate, that coordinate is its current target, it is not
correctly paired-and-carrying, and the message's key strictly exceeds its
own `combined_pair_id`; in particular an agent whose key is at least the
message's never evicts (eviction ordering). -/
theorem c8_getout_eviction (r : Robot) (board : MessageBoard) (rng : Nat → Nat)
    (msg : Message) (key : Nat) (c : Coord) (amt : Option Nat) (tg : Coord)
    (hty : msg.msg_type = MessageType.GetOut)
    (hkey : r.combined_pair_id = some key)
    (hc : msg.message_content = MessageContent.Coord (some c) amt)
    (htg : r.target_gold = some tg) :
    ∃ res, r.paxos_receiver board (some msg) rng = some res ∧
      ((r.current_coord = c ∧ msg.id > key ∧ r.current_coord = tg ∧
          (¬r.is_carrying ∨ r.carrying_with_wrong_pair)) →
        (res.1.combined_pair_id = none ∧
         res.1.current_state = RobotState.ClusterFinding ∧
         res.1.target_gold = none ∧
         (∀ rid, (res.2.getBox rid).new_messages =
            (board.getBox rid).new_messages ++
              List.replicate (r.local_cluster.count rid)
                ({ sender_id := r.id, msg_type := MessageType.Done, id := r.id,
                   message_content := MessageContent.Coord none none, timer := 0 })))) ∧
      (¬(r.current_coord = c ∧ msg.id > key ∧ r.current_coord = tg ∧
          (¬r.is_carrying ∨ r.carrying_with_wrong_pair)) →
        (res.1.combined_pair_id = some key ∧
         res.1.current_state = r.current_state ∧
         res.1.target_gold = some tg ∧
         res.1.received_begin = r.received_begin ∧
         res.2 = board)) ∧
      (msg.id ≤ key →
        ¬(r.current_coord = c ∧ msg.id > key ∧ r.current_coord = tg ∧
          (¬r.is_carrying ∨ r.carrying_with_wrong_pair))) := by
  obtain ⟨sender, ty, pid, content, timer⟩ := msg
  cases hty
  cases hc
  simp only [Robot.paxos_receiver, hkey, htg]
  by_cases h1 : r.current_coord = c ∧ pid > key
  · by_cases h2 : r.current_coord = tg ∧ (¬r.is_carrying ∨ r.carrying_with_wrong_pair)
    · simp only [if_pos h1, if_pos h2]
      refine ⟨_, rfl, ?_, ?_, ?_⟩
      · intro _
        refine ⟨(Robot.plan_fields _ _).1, (Robot.plan_fields _ _).2.1,
          (Robot.plan_fields _ _).2.2.1, ?_⟩
        intro rid
        exact Robot.send_getBox_new _ _ _ _ _
      · intro hn
        exact absurd ⟨h1.1, h1.2, h2.1, h2.2⟩ hn
      · intro hle _
        exact absurd h1.2 (Nat.not_lt.mpr hle)
    · simp only [if_pos h1, if_neg h2]
      by_cases h3 : r.planned_actions = [] ∧ r.current_state ≠ RobotState.AtTarget
      · simp only [if_pos h3]
        refine ⟨_, rfl, ?_, ?_, ?_⟩
        · intro hcond
          exact absurd ⟨hcond.2.2.1, hcond.2.2.2⟩ h2
        · intro _
          exact ⟨(Robot.plan_fields _ _).1.trans hkey, (Robot.plan_fields _ _).2.1,
            (Robot.plan_fields _ _).2.2.1.trans htg, (Robot.plan_fields _ _).2.2.2, rfl⟩
        · intro _ hcond
          exact absurd ⟨hcond.2.2.1, hcond.2.2.2⟩ h2
      · simp only [if_neg h3]
        refine ⟨_, rfl, ?_, ?_, ?_⟩
        · intro hcond
          exact absurd ⟨hcond.2.2.1, hcond.2.2.2⟩ h2
        · intro _
          exact ⟨hkey, rfl, htg, rfl, rfl⟩
        · intro _ hcond
          exact absurd ⟨hcond.2.2.1, hcond.2.2.2⟩ h2
  · simp only [if_neg h1]
    by_cases h3 : r.planned_actions = [] ∧ r.current_state ≠ RobotState.AtTarget
    · simp only [if_pos h3]
      refine ⟨_, rfl, ?_, ?_, ?_⟩
      · intro hcond
        exact absurd ⟨hcond.1, hcond.2.1⟩ h1
      · intro _
        exact ⟨(Robot.plan_fields _ _).1.trans hkey, (Robot.plan_fields _ _).2.1,
          (Robot.plan_fields _ _).2.2.1.trans htg, (Robot.plan_fields _ _).2.2.2, rfl⟩
      · intro _ hcond
        exact absurd ⟨hcond.1, hcond.2.1⟩ h1
    · simp only [if_neg h3]
      refine ⟨_, rfl, ?_, ?_, ?_⟩
      · intro hcond
        exact absurd ⟨hcond.1, hcond.2.1⟩ h1
      · intro _
        exact ⟨hkey, rfl, htg, rfl, rfl⟩
      · intro _ hcond
        exact absurd ⟨hcond.1, hcond.2.1⟩ h1

/-- Witness for C8: a colocated, unpaired-carrying-free bystander with key 99
evicts on a key-100 `GetOut` over its target cell; the same robot holding
key 100 does not evict on a key-99 `GetOut` (eviction ordering). -/
theorem c8_getout_eviction_witness :
    (∃ res, ({ Robot.new 97 Team.Blue ⟨2, 2⟩ Direction.Up ⟨0, 0⟩ 4 0 with
        target_gold := some ⟨2, 2⟩
        combined_pair_id := some 99 } : Robot).paxos_receiver []
        (some ⟨100, MessageType.GetOut, 100, MessageContent.Coord (some ⟨2, 2⟩) (some 0), 0⟩)
        (fun _ => 0) = some res ∧
      res.1.combined_pair_id = none ∧
      res.1.current_state = RobotState.ClusterFinding) ∧
    (∃ res, ({ Robot.new 97 Team.Blue ⟨2, 2⟩ Direction.Up ⟨0, 0⟩ 4 0 with
        target_gold := some ⟨2, 2⟩
        combined_pair_id := some 100 } : Robot).paxos_receiver []
        (some ⟨99, MessageType.GetOut, 99, MessageContent.Coord (some ⟨2, 2⟩) (some 0), 0⟩)
        (fun _ => 0) = some res ∧
      res.1.combined_pair_id = some 100 ∧
      res.1.current_state = RobotState.ClusterFinding) := by
  constructor
  · obtain ⟨res, heq, hevict, hno, hord⟩ := c8_getout_eviction
      ({ Robot.new 97 Team.Blue ⟨2, 2⟩ Direction.Up ⟨0, 0⟩ 4 0 with
        target_gold := some ⟨2, 2⟩
        combined_pair_id := some 99 } : Robot) [] (fun _ => 0)
      ⟨100, MessageType.GetOut, 100, MessageContent.Coord (some ⟨2, 2⟩) (some 0), 0⟩
      99 ⟨2, 2⟩ (some 0) ⟨2, 2⟩ rfl rfl rfl rfl
    obtain ⟨he1, he2, he3, _⟩ := hevict ⟨rfl, by decide, rfl, Or.inl (by decide)⟩
    exact ⟨res, heq, he1, he2⟩
  · obtain ⟨res, heq, hevict, hno, hord⟩ := c8_getout_eviction
      ({ Robot.new 97 Team.Blue ⟨2, 2⟩ Direction.Up ⟨0, 0⟩ 4 0 with
        target_gold := some ⟨2, 2⟩
        combined_pair_id := some 100 } : Robot) [] (fun _ => 0)
      ⟨99, MessageType.GetOut, 99, MessageContent.Coord (some ⟨2, 2⟩) (some 0), 0⟩
      100 ⟨2, 2⟩ (some 0) ⟨2, 2⟩ rfl rfl rfl rfl
    obtain ⟨hn1, hn2, hn3, hn4, hn5⟩ := hno (hord (by decide))
    exact ⟨res, heq, hn1, hn2⟩

/-- C9: `Robot::reset` leaves id, team, position, facing and the knowledge
base unchanged, clears the cluster bookkeeping (target, amounts, clusters
map, backup cluster) and every election field (promise, promise and accept
counts, consensus pair, combined pair key), and sets the state machine back
to `ClusterFinding`. -/
theorem c9_reset_frame_and_clear (r : Robot) :
    (r.reset.id = r.id ∧ r.reset.team = r.team ∧
     r.reset.current_coord = r.current_coord ∧ r.reset.facing = r.facing ∧
     r.reset.knowledge_base = r.knowledge_base) ∧
    (r.reset.target_gold = none ∧ r.reset.target_gold_amount = 0 ∧
     r.reset.max_gold_seen = 0 ∧ r.reset.clusters = [] ∧
     r.reset.backup_cluster = [] ∧ r.reset.max_gold_receive = 0 ∧
     r.reset.max_gold_receive_coord = none) ∧
    (r.reset.promised_message = none ∧ r.reset.promise_count = 0 ∧
     r.reset.accept_count = 0 ∧ r.reset.consensus_pair = none ∧
     r.reset.combined_pair_id = none) ∧
    r.reset.current_state = RobotState.ClusterFinding := by
  exact ⟨⟨rfl, rfl, rfl, rfl, rfl⟩, ⟨rfl, rfl, rfl, rfl, rfl, rfl, rfl⟩,
    ⟨rfl, rfl, rfl, rfl, rfl⟩, rfl⟩

/-- C10: a robot in the `Paxos` state that receives an `AcceptRequest` while
holding no promise ignores it entirely: the state is unchanged and no reply
is sent, whatever the request's proposal id. -/
theorem c10_accept_request_without_promise (r : Robot) (board : MessageBoard)
    (rng : Nat → Nat) (msg : Message)
    (hst : r.current_state = RobotState.Paxos)
    (hty : msg.msg_type = MessageType.AcceptRequest)
    (hpm : r.promised_message = none) :
    r.paxos_receiver board (some msg) rng = some (r, board) := by
  cases msg with
  | mk sender ty pid content timer =>
      cases hty
      simp [Robot.paxos_receiver, hst, hpm]

/-- Witness for C10: a freshly spawned robot moved into the `Paxos` state
(it holds no promise) ignores an `AcceptRequest` with a high id. -/
theorem c10_accept_request_without_promise_witness :
    ({ Robot.new 97 Team.Blue ⟨0, 0⟩ Direction.Up ⟨0, 0⟩ 4 0 with
        current_state := RobotState.Paxos } : Robot).paxos_receiver []
      (some ⟨98, MessageType.AcceptRequest, 1000, MessageContent.Pair 98 99, 0⟩)
      (fun _ => 0) =
      some ({ Robot.new 97 Team.Blue ⟨0, 0⟩ Direction.Up ⟨0, 0⟩ 4 0 with
        current_state := RobotState.Paxos }, []) :=
  c10_accept_request_without_promise _ _ _ _ rfl rfl rfl

end CPR
